import Mathlib

/-!
Verification of the AS7265x pre-assembly tester's virtual-register access
protocol, embedded from src/as7265x_tester.py.

The underlying byte transport (smbus2 or the i2cget/i2cset command-line
fallback, both wrapped by read_direct_register / write_direct_register)
is modelled as an oracle `Bus`: a pair of functions from the index of the
bus operation (how many direct reads/writes have happened so far) and the
physical register address to the outcome.  Every operation of the protocol
threads a `BusState` that records the operation counter and the ordered
trace of bus events (including the sleeps the Python code performs), so
that ordering and framing properties can be stated about the trace.
-/

/-- Physical register addresses (src constants). -/
def I2C_AS72XX_SLAVE_STATUS_REG : Nat := 0x00

def I2C_AS72XX_SLAVE_WRITE_REG : Nat := 0x01

def I2C_AS72XX_SLAVE_READ_REG : Nat := 0x02

def I2C_AS72XX_SLAVE_TX_VALID : Nat := 0x02

def I2C_AS72XX_SLAVE_RX_VALID : Nat := 0x01

def AS7263_REG_DEVICE_TYPE : Nat := 0x00

def AS7263_REG_HW_VERSION : Nat := 0x01

def AS7265X_DEVICE_TEMP : Nat := 0x06

def AS7265X_DEV_SELECT_CONTROL : Nat := 0x4F

def AS72651_NIR : Nat := 0x00

def AS72652_VISIBLE : Nat := 0x01

def AS72653_UV : Nat := 0x02

/-- One observable event of a protocol operation: a direct register read
(with its result, `none` when the transport failed), a direct register
write (with the success flag returned by the transport), or a sleep of the
given number of milliseconds. -/
inductive BusEvent where
  | readEvt (reg : Nat) (result : Option Nat)
  | writeEvt (reg : Nat) (value : Nat) (ok : Bool)
  | sleepEvt (ms : Nat)
deriving DecidableEq, Repr

/-- The byte transport, as an oracle indexed by the number of direct bus
operations performed so far. -/
structure Bus where
  readFn : Nat → Nat → Option Nat
  writeFn : Nat → Nat → Nat → Bool

/-- State threaded through the protocol: the bus-operation counter used to
index the oracle, and the trace of events so far. -/
structure BusState where
  time : Nat
  trace : List BusEvent
deriving DecidableEq, Repr

def initState : BusState := ⟨0, []⟩

/-- read_direct_register: one direct read of a physical register. -/
def readDR (bus : Bus) (s : BusState) (reg : Nat) : Option Nat × BusState :=
  (bus.readFn s.time reg,
   ⟨s.time + 1, s.trace ++ [BusEvent.readEvt reg (bus.readFn s.time reg)]⟩)

/-- write_direct_register: one direct write of a physical register. -/
def writeDR (bus : Bus) (s : BusState) (reg value : Nat) : Bool × BusState :=
  (bus.writeFn s.time reg value,
   ⟨s.time + 1, s.trace ++ [BusEvent.writeEvt reg value (bus.writeFn s.time reg value)]⟩)

/-- The readiness test used by the TX polling loops of the source:
`(status & I2C_AS72XX_SLAVE_TX_VALID) == 0`. -/
def txReadyObserved (status : Nat) : Bool :=
  (status &&& I2C_AS72XX_SLAVE_TX_VALID) == 0

/-- The readiness test used by the RX polling loop of the source:
`(status & I2C_AS72XX_SLAVE_RX_VALID) != 0`. -/
def rxReadyObserved (status : Nat) : Bool :=
  (status &&& I2C_AS72XX_SLAVE_RX_VALID) != 0

/-- StatusDecoder flag: the transmit buffer is busy. -/
def tx_busy (status : Nat) : Bool := !(txReadyObserved status)

/-- StatusDecoder flag: receive data is ready. -/
def rx_ready (status : Nat) : Bool := rxReadyObserved status

/-- The break test of the source's polling loops:
`status is not None and cond(status)`. -/
def pollHit (cond : Nat → Bool) : Option Nat → Bool
  | some v => cond v
  | none => false

/-- One `for _ in range(n): status = read_direct_register(STATUS); if
status is not None and cond(status): break; time.sleep(0.1)` loop of the
source.  Returns `false` exactly when the `for`'s `else:` clause runs
(all `n` samples exhausted without a break). -/
def pollLoop (bus : Bus) (cond : Nat → Bool) : Nat → BusState → Bool × BusState
  | 0, s => (false, s)
  | n + 1, s =>
    let st := bus.readFn s.time I2C_AS72XX_SLAVE_STATUS_REG
    let s1 : BusState :=
      ⟨s.time + 1, s.trace ++ [BusEvent.readEvt I2C_AS72XX_SLAVE_STATUS_REG st]⟩
    if pollHit cond st then (true, s1)
    else pollLoop bus cond n ⟨s1.time, s1.trace ++ [BusEvent.sleepEvt 100]⟩

/-- read_virtual_register (src/as7265x_tester.py lines 143-174). -/
def read_virtual_register (bus : Bus) (s : BusState) (virtual_reg : Nat) :
    Option Nat × BusState :=
  let p1 := pollLoop bus txReadyObserved 50 s
  if p1.1 then
    let w := writeDR bus p1.2 I2C_AS72XX_SLAVE_WRITE_REG virtual_reg
    if w.1 then
      let p2 := pollLoop bus rxReadyObserved 50 w.2
      if p2.1 then readDR bus p2.2 I2C_AS72XX_SLAVE_READ_REG
      else (none, p2.2)
    else (none, w.2)
  else (none, p1.2)

/-- write_virtual_register (src/as7265x_tester.py lines 176-206). -/
def write_virtual_register (bus : Bus) (s : BusState) (virtual_reg data : Nat) :
    Bool × BusState :=
  let p1 := pollLoop bus txReadyObserved 50 s
  if p1.1 then
    let w := writeDR bus p1.2 I2C_AS72XX_SLAVE_WRITE_REG (virtual_reg ||| 0x80)
    if w.1 then
      let p2 := pollLoop bus txReadyObserved 50 w.2
      if p2.1 then writeDR bus p2.2 I2C_AS72XX_SLAVE_WRITE_REG data
      else (false, p2.2)
    else (false, w.2)
  else (false, p1.2)

/-- Tags for the log messages emitted by test_basic_communication, one
constructor per distinct message of the source. -/
inductive LogTag where
  | statusOk (v : Nat)
  | cannotReadStatus
  | deviceTypeOk
  | unexpectedDeviceType (v : Nat)
  | cannotReadDeviceType
  | hwVersionOk
  | wrongHwVersion (v : Nat)
  | cannotReadHwVersion
deriving DecidableEq, Repr

/-- test_basic_communication (src/as7265x_tester.py lines 386-422): read
STATUS directly, then the DEVICE_TYPE and HW_VERSION virtual registers,
returning the boolean verdict together with the log messages. -/
def test_basic_communication (bus : Bus) (s : BusState) :
    Bool × BusState × List LogTag :=
  let r0 := readDR bus s I2C_AS72XX_SLAVE_STATUS_REG
  match r0.1 with
  | none => (false, r0.2, [LogTag.cannotReadStatus])
  | some st =>
    let r1 := read_virtual_register bus r0.2 AS7263_REG_DEVICE_TYPE
    match r1.1 with
    | none => (false, r1.2, [LogTag.statusOk st, LogTag.cannotReadDeviceType])
    | some dt =>
      let dtLog := if dt = 0x40 then LogTag.deviceTypeOk
                   else LogTag.unexpectedDeviceType dt
      let r2 := read_virtual_register bus r1.2 AS7263_REG_HW_VERSION
      match r2.1 with
      | none => (false, r2.2, [LogTag.statusOk st, dtLog, LogTag.cannotReadHwVersion])
      | some hv =>
        if hv = 0x41 then (true, r2.2, [LogTag.statusOk st, dtLog, LogTag.hwVersionOk])
        else (false, r2.2, [LogTag.statusOk st, dtLog, LogTag.wrongHwVersion hv])

/-- The `time.sleep(0.2)` settle delay after a successful device select. -/
def settle (s : BusState) : BusState := ⟨s.time, s.trace ++ [BusEvent.sleepEvt 200]⟩

/-- One iteration of the loop body of test_device_selection: select the
device, settle, read the temperature virtual register.  Both the
plausible-temperature branch and the unusual-temperature branch of the
source append True, so the result is true exactly when the device
responded. -/
def selStep (bus : Bus) (s : BusState) (device_id : Nat) : Bool × BusState :=
  let w := write_virtual_register bus s AS7265X_DEV_SELECT_CONTROL device_id
  if w.1 then
    let r := read_virtual_register bus (settle w.2) AS7265X_DEVICE_TEMP
    match r.1 with
    | some _ => (true, r.2)
    | none => (false, r.2)
  else (false, w.2)

/-- The devices list of test_device_selection, in source order. -/
def devices : List Nat := [AS72651_NIR, AS72652_VISIBLE, AS72653_UV]

/-- The for-loop of test_device_selection, accumulating one boolean per
device. -/
def selLoop (bus : Bus) : List Nat → BusState → BusState × List Bool
  | [], s => (s, [])
  | d :: ds, s =>
    let r := selStep bus s d
    let rest := selLoop bus ds r.2
    (rest.1, r.1 :: rest.2)

/-- test_device_selection (src/as7265x_tester.py lines 424-454): iterate
over NIR, Visible, UV and return `all(results)` with the results list. -/
def test_device_selection (bus : Bus) (s : BusState) :
    Bool × BusState × List Bool :=
  let r := selLoop bus devices s
  (r.2.all id, r.1, r.2)

/-- hardware_reset (src/as7265x_tester.py lines 89-109), with the two GPIO
shell commands' success abstracted as booleans. -/
def hardware_reset (resetLowOk resetHighOk : Bool) : Bool :=
  if !resetLowOk then false
  else if !resetHighOk then false
  else true

inductive PhaseName where
  | hwReset
  | i2cComm
  | devSelect
deriving DecidableEq, Repr

/-- The phase loop of run_full_test: run each phase in order, record its
verdict, and break on the first failure. -/
def runTests : List (PhaseName × (BusState → Bool × BusState)) → BusState →
    Bool × List (PhaseName × Bool) × BusState
  | [], s => (true, [], s)
  | (name, f) :: rest, s =>
    let r := f s
    if r.1 then
      let rec0 := runTests rest r.2
      (rec0.1, (name, true) :: rec0.2.1, rec0.2.2)
    else (false, [(name, false)], r.2)

/-- run_full_test (src/as7265x_tester.py lines 456-501): Hardware Reset,
then I2C Communication, then Device Selection, stopping at the first
failure; overall result is PASS iff every executed phase passed. -/
def run_full_test (resetLowOk resetHighOk : Bool) (bus : Bus) (s : BusState) :
    Bool × List (PhaseName × Bool) × BusState :=
  runTests
    [(PhaseName.hwReset, fun s0 => (hardware_reset resetLowOk resetHighOk, s0)),
     (PhaseName.i2cComm, fun s0 =>
        ((test_basic_communication bus s0).1, (test_basic_communication bus s0).2.1)),
     (PhaseName.devSelect, fun s0 =>
        ((test_device_selection bus s0).1, (test_device_selection bus s0).2.1))]
    s

/-- True of direct reads of the STATUS register. -/
def isStatusRead (e : BusEvent) : Bool :=
  match e with
  | BusEvent.readEvt reg _ => reg == I2C_AS72XX_SLAVE_STATUS_REG
  | _ => false

/-- True of sleep events. -/
def isSleep (e : BusEvent) : Bool :=
  match e with
  | BusEvent.sleepEvt _ => true
  | _ => false

/-- Number of STATUS samples in a trace. -/
def statusReadCount (tr : List BusEvent) : Nat := tr.countP isStatusRead

/-- Number of sleeps in a trace. -/
def sleepCount (tr : List BusEvent) : Nat := tr.countP isSleep

/-- The values placed on the WRITE physical register, in order. -/
def writeRegPayloads (tr : List BusEvent) : List Nat :=
  tr.filterMap fun e =>
    match e with
    | BusEvent.writeEvt reg v _ =>
      if reg = I2C_AS72XX_SLAVE_WRITE_REG then some v else none
    | _ => none

/-- An event a polling loop may emit without breaking: a STATUS sample
that did not satisfy the readiness condition, or a 100 ms sleep. -/
def isFailedPollEvt (cond : Nat → Bool) (e : BusEvent) : Bool :=
  match e with
  | BusEvent.readEvt reg r =>
    reg == I2C_AS72XX_SLAVE_STATUS_REG &&
      (match r with
       | some v => !cond v
       | none => true)
  | BusEvent.writeEvt _ _ _ => false
  | BusEvent.sleepEvt ms => ms == 100

theorem failedPoll_of_hit_false (cond : Nat → Bool) (r : Option Nat)
    (h : pollHit cond r = false) :
    isFailedPollEvt cond (BusEvent.readEvt I2C_AS72XX_SLAVE_STATUS_REG r) = true := by
  cases r with
  | none => simp [isFailedPollEvt]
  | some v =>
    simp only [pollHit] at h
    simp [isFailedPollEvt, h]

theorem sleep_isFailedPollEvt (cond : Nat → Bool) :
    isFailedPollEvt cond (BusEvent.sleepEvt 100) = true := rfl

theorem pollLoop_false (bus : Bus) (cond : Nat → Bool) :
    ∀ (n : Nat) (s s' : BusState), pollLoop bus cond n s = (false, s') →
    ∃ junk, s'.time = s.time + n ∧ s'.trace = s.trace ++ junk ∧
      junk.countP isStatusRead = n ∧ junk.countP isSleep = n ∧
      ∀ e ∈ junk, isFailedPollEvt cond e = true := by
  intro n
  induction n with
  | zero =>
    intro s s' h
    simp only [pollLoop, Prod.mk.injEq] at h
    exact ⟨[], by simp [← h.2]⟩
  | succ n ih =>
    intro s s' h
    simp only [pollLoop] at h
    cases hhit : pollHit cond (bus.readFn s.time I2C_AS72XX_SLAVE_STATUS_REG) with
    | true => rw [hhit] at h; simp at h
    | false =>
      rw [hhit] at h
      simp only [Bool.false_eq_true, if_false] at h
      obtain ⟨junk, ht, htr, hc1, hc2, hall⟩ := ih _ _ h
      refine ⟨BusEvent.readEvt I2C_AS72XX_SLAVE_STATUS_REG
                (bus.readFn s.time I2C_AS72XX_SLAVE_STATUS_REG) ::
              BusEvent.sleepEvt 100 :: junk, ?_, ?_, ?_, ?_, ?_⟩
      · simp at ht; omega
      · simp only [htr]; simp
      · simp [List.countP_cons, hc1, isStatusRead, isSleep]
      · simp [List.countP_cons, hc2, isStatusRead, isSleep]
      · intro e he
        simp only [List.mem_cons] at he
        rcases he with rfl | rfl | he
        · exact failedPoll_of_hit_false cond _ hhit
        · exact sleep_isFailedPollEvt cond
        · exact hall _ he

theorem pollLoop_true (bus : Bus) (cond : Nat → Bool) :
    ∀ (n : Nat) (s s' : BusState), pollLoop bus cond n s = (true, s') →
    ∃ junk v, s'.trace = s.trace ++ junk ++
        [BusEvent.readEvt I2C_AS72XX_SLAVE_STATUS_REG (some v)] ∧
      cond v = true ∧ ∀ e ∈ junk, isFailedPollEvt cond e = true := by
  intro n
  induction n with
  | zero =>
    intro s s' h
    simp [pollLoop] at h
  | succ n ih =>
    intro s s' h
    simp only [pollLoop] at h
    cases hhit : pollHit cond (bus.readFn s.time I2C_AS72XX_SLAVE_STATUS_REG) with
    | true =>
      rw [hhit] at h
      simp only [if_true, Prod.mk.injEq, true_and] at h
      cases hr : bus.readFn s.time I2C_AS72XX_SLAVE_STATUS_REG with
      | none => rw [hr] at hhit; simp [pollHit] at hhit
      | some v =>
        rw [hr] at hhit h
        simp only [pollHit] at hhit
        exact ⟨[], v, by simp [← h], hhit, by simp⟩
    | false =>
      rw [hhit] at h
      simp only [Bool.false_eq_true, if_false] at h
      obtain ⟨junk, v', htr, hcv', hall⟩ := ih _ _ h
      refine ⟨BusEvent.readEvt I2C_AS72XX_SLAVE_STATUS_REG
                (bus.readFn s.time I2C_AS72XX_SLAVE_STATUS_REG) ::
              BusEvent.sleepEvt 100 :: junk, v', ?_, hcv', ?_⟩
      · simp only [htr]; simp
      · intro e he
        simp only [List.mem_cons] at he
        rcases he with rfl | rfl | he
        · exact failedPoll_of_hit_false cond _ hhit
        · exact sleep_isFailedPollEvt cond
        · exact hall _ he

theorem pollLoop_never (bus : Bus) (cond : Nat → Bool)
    (hnever : ∀ t v, bus.readFn t I2C_AS72XX_SLAVE_STATUS_REG = some v → cond v = false) :
    ∀ (n : Nat) (s : BusState), (pollLoop bus cond n s).1 = false := by
  intro n
  induction n with
  | zero => intro s; simp [pollLoop]
  | succ n ih =>
    intro s
    simp only [pollLoop]
    have hhit : pollHit cond (bus.readFn s.time I2C_AS72XX_SLAVE_STATUS_REG) = false := by
      cases hr : bus.readFn s.time I2C_AS72XX_SLAVE_STATUS_REG with
      | none => rfl
      | some v => simp only [pollHit]; exact hnever _ _ hr
    rw [hhit]
    simp only [Bool.false_eq_true, if_false]
    exact ih _

theorem junk_writeRegPayloads (cond : Nat → Bool) :
    ∀ junk : List BusEvent, (∀ e ∈ junk, isFailedPollEvt cond e = true) →
    writeRegPayloads junk = [] := by
  intro junk
  induction junk with
  | nil => intro _; rfl
  | cons e rest ih =>
    intro hall
    have he := hall e (by simp)
    have hrest := ih fun e h => hall e (by simp [h])
    cases e with
    | readEvt reg r =>
      simp only [writeRegPayloads, List.filterMap_cons] at hrest ⊢
      exact hrest
    | writeEvt reg v ok => simp [isFailedPollEvt] at he
    | sleepEvt ms =>
      simp only [writeRegPayloads, List.filterMap_cons] at hrest ⊢
      exact hrest

theorem junk_no_writeEvt (cond : Nat → Bool) :
    ∀ junk : List BusEvent, (∀ e ∈ junk, isFailedPollEvt cond e = true) →
    ∀ reg v ok, BusEvent.writeEvt reg v ok ∉ junk := by
  intro junk hall reg v ok hmem
  have := hall _ hmem
  simp [isFailedPollEvt] at this

theorem wp_append (a b : List BusEvent) :
    writeRegPayloads (a ++ b) = writeRegPayloads a ++ writeRegPayloads b := by
  simp [writeRegPayloads, List.filterMap_append]

theorem wp_writeW (v : Nat) (ok : Bool) :
    writeRegPayloads [BusEvent.writeEvt I2C_AS72XX_SLAVE_WRITE_REG v ok] = [v] := by
  simp [writeRegPayloads]

theorem wp_readEvt (reg : Nat) (r : Option Nat) :
    writeRegPayloads [BusEvent.readEvt reg r] = [] := rfl

theorem pollLoop_wp (bus : Bus) (cond : Nat → Bool) (n : Nat) (s : BusState) :
    writeRegPayloads (pollLoop bus cond n s).2.trace = writeRegPayloads s.trace := by
  rcases hp : pollLoop bus cond n s with ⟨b, s'⟩
  cases b
  · obtain ⟨junk, _, htr, _, _, hall⟩ := pollLoop_false bus cond n s s' hp
    simp [htr, wp_append, junk_writeRegPayloads cond junk hall]
  · obtain ⟨junk, v, htr, _, hall⟩ := pollLoop_true bus cond n s s' hp
    simp [htr, wp_append, junk_writeRegPayloads cond junk hall, wp_readEvt]

theorem testBit7_frame : ∀ a : Nat, a < 128 →
    (a ||| 0x80).testBit 7 = true ∧ a.testBit 7 = false := by decide

/-- Payloads placed on WRITE by a whole write_virtual_register call starting
from the empty trace: nothing (first poll timed out), just the framed
address, or the framed address followed by the data byte. -/
theorem write_vr_payloads (bus : Bus) (addr data : Nat) :
    writeRegPayloads ((write_virtual_register bus initState addr data).2.trace) ∈
      ([[], [addr ||| 0x80], [addr ||| 0x80, data]] : List (List Nat)) := by
  rcases hp1 : pollLoop bus txReadyObserved 50 initState with ⟨b1, s1⟩
  have hwp1 : writeRegPayloads s1.trace = [] := by
    have h := pollLoop_wp bus txReadyObserved 50 initState
    rw [hp1] at h
    simpa [initState, writeRegPayloads] using h
  cases b1
  · simp [write_virtual_register, hp1, hwp1]
  · cases hok : bus.writeFn s1.time I2C_AS72XX_SLAVE_WRITE_REG (addr ||| 0x80)
    · simp [write_virtual_register, hp1, writeDR, hok, wp_append, hwp1, wp_writeW]
    · rcases hp2 : pollLoop bus txReadyObserved 50
        ⟨s1.time + 1, s1.trace ++
          [BusEvent.writeEvt I2C_AS72XX_SLAVE_WRITE_REG (addr ||| 0x80) true]⟩ with ⟨b2, s3⟩
      have hwp3 : writeRegPayloads s3.trace = [addr ||| 0x80] := by
        have h := pollLoop_wp bus txReadyObserved 50
          ⟨s1.time + 1, s1.trace ++
            [BusEvent.writeEvt I2C_AS72XX_SLAVE_WRITE_REG (addr ||| 0x80) true]⟩
        rw [hp2] at h
        simpa [wp_append, hwp1, wp_writeW] using h
      cases b2
      · simp [write_virtual_register, hp1, writeDR, hok, hp2, hwp3]
      · simp [write_virtual_register, hp1, writeDR, hok, hp2, wp_append, hwp3, wp_writeW]

/-- Payloads placed on WRITE by a whole read_virtual_register call starting
from the empty trace: nothing, or exactly the unmodified address. -/
theorem read_vr_payloads (bus : Bus) (addr : Nat) :
    writeRegPayloads ((read_virtual_register bus initState addr).2.trace) ∈
      ([[], [addr]] : List (List Nat)) := by
  rcases hp1 : pollLoop bus txReadyObserved 50 initState with ⟨b1, s1⟩
  have hwp1 : writeRegPayloads s1.trace = [] := by
    have h := pollLoop_wp bus txReadyObserved 50 initState
    rw [hp1] at h
    simpa [initState, writeRegPayloads] using h
  cases b1
  · simp [read_virtual_register, hp1, hwp1]
  · cases hok : bus.writeFn s1.time I2C_AS72XX_SLAVE_WRITE_REG addr
    · simp [read_virtual_register, hp1, writeDR, hok, wp_append, hwp1, wp_writeW]
    · rcases hp2 : pollLoop bus rxReadyObserved 50
        ⟨s1.time + 1, s1.trace ++
          [BusEvent.writeEvt I2C_AS72XX_SLAVE_WRITE_REG addr true]⟩ with ⟨b2, s3⟩
      have hwp3 : writeRegPayloads s3.trace = [addr] := by
        have h := pollLoop_wp bus rxReadyObserved 50
          ⟨s1.time + 1, s1.trace ++
            [BusEvent.writeEvt I2C_AS72XX_SLAVE_WRITE_REG addr true]⟩
        rw [hp2] at h
        simpa [wp_append, hwp1, wp_writeW] using h
      cases b2
      · simp [read_virtual_register, hp1, writeDR, hok, hp2, hwp3]
      · simp [read_virtual_register, hp1, writeDR, hok, hp2, readDR, wp_append, hwp3, wp_readEvt]

/-- A bus that is always ready and always acknowledges: STATUS reads 0x01
(tx ready, rx ready), READ returns 42, writes succeed. -/
def busHappy : Bus :=
  ⟨fun _ reg => if reg = I2C_AS72XX_SLAVE_READ_REG then some 42 else some 1,
   fun _ _ _ => true⟩

/-- C1: for every virtual address in [0, 0x7F], a write frames the address
on WRITE as addr OR 0x80 (write-indicator bit 7 set) and a read places the
address unmodified (bit 7 clear); these are the only bytes a read ever
places on WRITE, and a write additionally places only the payload after
the framed address. -/
theorem c1_write_framing : ∀ (bus : Bus) (addr data : Nat), addr ≤ 0x7F →
    writeRegPayloads ((write_virtual_register bus initState addr data).2.trace) ∈
      ([[], [addr ||| 0x80], [addr ||| 0x80, data]] : List (List Nat)) ∧
    writeRegPayloads ((read_virtual_register bus initState addr).2.trace) ∈
      ([[], [addr]] : List (List Nat)) ∧
    (addr ||| 0x80).testBit 7 = true ∧ addr.testBit 7 = false := by
  intro bus addr data h
  exact ⟨write_vr_payloads bus addr data, read_vr_payloads bus addr,
    (testBit7_frame addr (by omega)).1, (testBit7_frame addr (by omega)).2⟩

/-- Witness for c1_write_framing at a concrete bus and address. -/
theorem c1_write_framing_witness :
    (6 : Nat) ≤ 0x7F ∧
    writeRegPayloads ((write_virtual_register busHappy initState 6 9).2.trace) ∈
      ([[], [6 ||| 0x80], [6 ||| 0x80, 9]] : List (List Nat)) ∧
    writeRegPayloads ((read_virtual_register busHappy initState 6).2.trace) ∈
      ([[], [(6 : Nat)]] : List (List Nat)) :=
  ⟨by decide, (c1_write_framing busHappy 6 9 (by decide)).1,
   (c1_write_framing busHappy 6 9 (by decide)).2.1⟩

/-- C2: whenever a write operation actually places its payload byte on
WRITE (two bytes reached WRITE), the trace decomposes as: a first polling
phase ending in a tx-ready observation, immediately followed by the framed
address write, then a second polling phase ending in another tx-ready
observation, immediately followed by the payload write. -/
theorem c2_second_tx_wait : ∀ (bus : Bus) (addr data : Nat),
    2 ≤ (writeRegPayloads ((write_virtual_register bus initState addr data).2.trace)).length →
    ∃ t1 t2 v1 v2 ok2,
      (write_virtual_register bus initState addr data).2.trace =
        t1 ++ [BusEvent.readEvt I2C_AS72XX_SLAVE_STATUS_REG (some v1),
               BusEvent.writeEvt I2C_AS72XX_SLAVE_WRITE_REG (addr ||| 0x80) true] ++
        t2 ++ [BusEvent.readEvt I2C_AS72XX_SLAVE_STATUS_REG (some v2),
               BusEvent.writeEvt I2C_AS72XX_SLAVE_WRITE_REG data ok2] ∧
      txReadyObserved v1 = true ∧ txReadyObserved v2 = true := by
  intro bus addr data hlen
  rcases hp1 : pollLoop bus txReadyObserved 50 initState with ⟨b1, s1⟩
  have hwp1 : writeRegPayloads s1.trace = [] := by
    have h := pollLoop_wp bus txReadyObserved 50 initState
    rw [hp1] at h
    simpa [initState, writeRegPayloads] using h
  cases b1
  · rw [show (write_virtual_register bus initState addr data).2 = s1 by
      simp [write_virtual_register, hp1]] at hlen
    rw [hwp1] at hlen
    simp at hlen
  · cases hok : bus.writeFn s1.time I2C_AS72XX_SLAVE_WRITE_REG (addr ||| 0x80)
    · rw [show (write_virtual_register bus initState addr data).2 =
          ⟨s1.time + 1, s1.trace ++
            [BusEvent.writeEvt I2C_AS72XX_SLAVE_WRITE_REG (addr ||| 0x80) false]⟩ by
        simp [write_virtual_register, hp1, writeDR, hok]] at hlen
      rw [show writeRegPayloads (s1.trace ++
            [BusEvent.writeEvt I2C_AS72XX_SLAVE_WRITE_REG (addr ||| 0x80) false]) =
          [addr ||| 0x80] by rw [wp_append, hwp1, wp_writeW]; rfl] at hlen
      simp at hlen
    · rcases hp2 : pollLoop bus txReadyObserved 50
        ⟨s1.time + 1, s1.trace ++
          [BusEvent.writeEvt I2C_AS72XX_SLAVE_WRITE_REG (addr ||| 0x80) true]⟩ with ⟨b2, s3⟩
      cases b2
      · rw [show (write_virtual_register bus initState addr data).2 = s3 by
          simp [write_virtual_register, hp1, writeDR, hok, hp2]] at hlen
        have hwp3 : writeRegPayloads s3.trace = [addr ||| 0x80] := by
          have h := pollLoop_wp bus txReadyObserved 50
            ⟨s1.time + 1, s1.trace ++
              [BusEvent.writeEvt I2C_AS72XX_SLAVE_WRITE_REG (addr ||| 0x80) true]⟩
          rw [hp2] at h
          simpa [wp_append, hwp1, wp_writeW] using h
        rw [hwp3] at hlen
        simp at hlen
      · obtain ⟨junk1, v1, h1tr, hv1, _⟩ :=
          pollLoop_true bus txReadyObserved 50 initState s1 hp1
        obtain ⟨junk2, v2, h3tr, hv2, _⟩ :=
          pollLoop_true bus txReadyObserved 50
            ⟨s1.time + 1, s1.trace ++
              [BusEvent.writeEvt I2C_AS72XX_SLAVE_WRITE_REG (addr ||| 0x80) true]⟩ s3 hp2
        refine ⟨junk1, junk2, v1, v2,
          bus.writeFn s3.time I2C_AS72XX_SLAVE_WRITE_REG data, ?_, hv1, hv2⟩
        rw [show (write_virtual_register bus initState addr data).2 =
            ⟨s3.time + 1, s3.trace ++ [BusEvent.writeEvt I2C_AS72XX_SLAVE_WRITE_REG data
              (bus.writeFn s3.time I2C_AS72XX_SLAVE_WRITE_REG data)]⟩ by
          simp [write_virtual_register, hp1, writeDR, hok, hp2]]
        rw [h3tr]
        simp only [h1tr]
        simp [initState, List.append_assoc]

/-- Witness for c2_second_tx_wait at a concrete bus. -/
theorem c2_second_tx_wait_witness :
    2 ≤ (writeRegPayloads ((write_virtual_register busHappy initState 6 9).2.trace)).length ∧
    ∃ t1 t2 v1 v2 ok2,
      (write_virtual_register busHappy initState 6 9).2.trace =
        t1 ++ [BusEvent.readEvt I2C_AS72XX_SLAVE_STATUS_REG (some v1),
               BusEvent.writeEvt I2C_AS72XX_SLAVE_WRITE_REG (6 ||| 0x80) true] ++
        t2 ++ [BusEvent.readEvt I2C_AS72XX_SLAVE_STATUS_REG (some v2),
               BusEvent.writeEvt I2C_AS72XX_SLAVE_WRITE_REG 9 ok2] ∧
      txReadyObserved v1 = true ∧ txReadyObserved v2 = true :=
  ⟨by decide, c2_second_tx_wait busHappy 6 9 (by decide)⟩

set_option maxRecDepth 10000

/-- A bus whose STATUS always reads 0x02: tx stays busy forever. -/
def busTxStall : Bus := ⟨fun _ _ => some 2, fun _ _ _ => true⟩

/-- A bus whose STATUS always reads 0x00: tx ready at once, rx never
ready. -/
def busRxNever : Bus := ⟨fun _ _ => some 0, fun _ _ _ => true⟩

/-- A bus that is tx-ready for the very first STATUS sample and busy ever
after: the second tx wait of a write times out. -/
def busTx2Never : Bus :=
  ⟨fun t _ => if t = 0 then some 0 else some 2, fun _ _ _ => true⟩

/-- The bus never reports the transmit buffer as ready. -/
def neverTxReady (bus : Bus) : Prop :=
  ∀ t v, bus.readFn t I2C_AS72XX_SLAVE_STATUS_REG = some v → txReadyObserved v = false

/-- The state a first tx-ready poll against busTxStall times out in. -/
def stallState : BusState :=
  ⟨50, (List.replicate 50 [BusEvent.readEvt 0 (some 2), BusEvent.sleepEvt 100]).flatten⟩

/-- C3: against a bus that never reports the awaited readiness the polling
loops are exact: a never-tx-ready bus makes read and write fail after
exactly 50 STATUS samples (and 50 sleeps of 100 ms); a bus that stalls the
rx wait of a read, or the second tx wait of a write, produces exactly one
ready sample, the address write, and then exactly 50 further STATUS
samples interleaved with sleeps before the timeout outcome. -/
theorem c3_bounded_polling :
    (∀ (bus : Bus) (addr : Nat), neverTxReady bus →
      (read_virtual_register bus initState addr).1 = none ∧
      statusReadCount ((read_virtual_register bus initState addr).2.trace) = 50 ∧
      sleepCount ((read_virtual_register bus initState addr).2.trace) = 50) ∧
    (∀ (bus : Bus) (addr data : Nat), neverTxReady bus →
      (write_virtual_register bus initState addr data).1 = false ∧
      statusReadCount ((write_virtual_register bus initState addr data).2.trace) = 50 ∧
      sleepCount ((write_virtual_register bus initState addr data).2.trace) = 50) ∧
    read_virtual_register busRxNever initState 6 =
      (none, ⟨52, [BusEvent.readEvt 0 (some 0), BusEvent.writeEvt 1 6 true] ++
        (List.replicate 50 [BusEvent.readEvt 0 (some 0), BusEvent.sleepEvt 100]).flatten⟩) ∧
    write_virtual_register busTx2Never initState 6 9 =
      (false, ⟨52, [BusEvent.readEvt 0 (some 0), BusEvent.writeEvt 1 134 true] ++
        (List.replicate 50 [BusEvent.readEvt 0 (some 2), BusEvent.sleepEvt 100]).flatten⟩) := by
  refine ⟨?_, ?_, by decide, by decide⟩
  · intro bus addr hnever
    have hb := pollLoop_never bus txReadyObserved hnever 50 initState
    rcases hp1 : pollLoop bus txReadyObserved 50 initState with ⟨b1, s1⟩
    rw [hp1] at hb
    simp only at hb
    subst hb
    obtain ⟨junk, ht, htr, hc1, hc2, hall⟩ :=
      pollLoop_false bus txReadyObserved 50 initState s1 hp1
    have hres : read_virtual_register bus initState addr = (none, s1) := by
      simp [read_virtual_register, hp1]
    rw [hres]
    exact ⟨rfl, by simp [statusReadCount, htr, initState, hc1],
           by simp [sleepCount, htr, initState, hc2]⟩
  · intro bus addr data hnever
    have hb := pollLoop_never bus txReadyObserved hnever 50 initState
    rcases hp1 : pollLoop bus txReadyObserved 50 initState with ⟨b1, s1⟩
    rw [hp1] at hb
    simp only at hb
    subst hb
    obtain ⟨junk, ht, htr, hc1, hc2, hall⟩ :=
      pollLoop_false bus txReadyObserved 50 initState s1 hp1
    have hres : write_virtual_register bus initState addr data = (false, s1) := by
      simp [write_virtual_register, hp1]
    rw [hres]
    exact ⟨rfl, by simp [statusReadCount, htr, initState, hc1],
           by simp [sleepCount, htr, initState, hc2]⟩

/-- Witness for c3_bounded_polling against the always-busy bus. -/
theorem c3_bounded_polling_witness :
    neverTxReady busTxStall ∧
    (read_virtual_register busTxStall initState 6).1 = none ∧
    statusReadCount ((read_virtual_register busTxStall initState 6).2.trace) = 50 := by
  have hn : neverTxReady busTxStall := by
    intro t v hv
    simp only [busTxStall] at hv
    cases hv
    rfl
  exact ⟨hn, (c3_bounded_polling.1 busTxStall 6 hn).1,
         (c3_bounded_polling.1 busTxStall 6 hn).2.1⟩

/-- C10: when the initial tx-ready polling phase times out, both the read
and the write operation return their failure outcome in exactly that
state, whose trace contains no write event at all: the host never touched
the WRITE register. -/
theorem c10_no_write_on_first_timeout : ∀ (bus : Bus) (addr data : Nat) (s1 : BusState),
    pollLoop bus txReadyObserved 50 initState = (false, s1) →
    read_virtual_register bus initState addr = (none, s1) ∧
    write_virtual_register bus initState addr data = (false, s1) ∧
    ∀ reg v ok, BusEvent.writeEvt reg v ok ∉ s1.trace := by
  intro bus addr data s1 hp1
  obtain ⟨junk, ht, htr, hc1, hc2, hall⟩ :=
    pollLoop_false bus txReadyObserved 50 initState s1 hp1
  refine ⟨by simp [read_virtual_register, hp1],
          by simp [write_virtual_register, hp1], ?_⟩
  intro reg v ok hmem
  rw [htr] at hmem
  simp only [initState, List.nil_append] at hmem
  exact junk_no_writeEvt txReadyObserved junk hall reg v ok hmem

/-- Witness for c10_no_write_on_first_timeout against the always-busy
bus. -/
theorem c10_no_write_on_first_timeout_witness :
    read_virtual_register busTxStall initState 6 = (none, stallState) ∧
    BusEvent.writeEvt 1 6 true ∉ stallState.trace := by
  have hp : pollLoop busTxStall txReadyObserved 50 initState = (false, stallState) := by
    decide
  exact ⟨(c10_no_write_on_first_timeout busTxStall 6 9 stallState hp).1,
         (c10_no_write_on_first_timeout busTxStall 6 9 stallState hp).2.2 1 6 true⟩

/-- C4: the flags driving the polling loops are a pure function of exactly
bits 0 and 1 of the raw status byte: tx_busy is bit 1, rx_ready is bit 0,
and toggling any of bits 2 through 7 changes neither flag. -/
theorem c4_status_decoder : ∀ raw : Nat, raw < 256 →
    (tx_busy raw = raw.testBit 1 ∧ rx_ready raw = raw.testBit 0) ∧
    ∀ k : Nat, k < 8 → 2 ≤ k →
      tx_busy (raw ^^^ (1 <<< k)) = tx_busy raw ∧
      rx_ready (raw ^^^ (1 <<< k)) = rx_ready raw := by decide

/-- Witness for c4_status_decoder at raw status 0x02. -/
theorem c4_status_decoder_witness :
    (2 : Nat) < 256 ∧ (tx_busy 2 = Nat.testBit 2 1 ∧ rx_ready 2 = Nat.testBit 2 0) :=
  ⟨by decide, (c4_status_decoder 2 (by decide)).1⟩

/-- A bus that answers the DEVICE_TYPE virtual read (bus operation 4) with
0x99 and every other READ access with 0x41; STATUS always 0x01, writes
succeed. -/
def busC5 : Bus :=
  ⟨fun t reg => if reg = I2C_AS72XX_SLAVE_READ_REG then
      (if t = 4 then some 0x99 else some 0x41) else some 1,
   fun _ _ _ => true⟩

/-- C5 counterexample: against busC5 the DEVICE_TYPE read returns 0x99,
which is not 0x40, yet test_basic_communication reports success — a wrong
device type is not a hard failure of the identity check. -/
theorem c5_counterexample :
    (test_basic_communication busC5 initState).1 = true ∧
    LogTag.unexpectedDeviceType 0x99 ∈ (test_basic_communication busC5 initState).2.2 := by
  decide

/-- C5 amended: the identity check passes iff the STATUS read succeeds,
the DEVICE_TYPE virtual read returns some value (any value at all), and
the HW_VERSION virtual read returns exactly 0x41; a readable wrong device
type only produces a warning log entry. -/
theorem c5_amended_identity_check : ∀ (bus : Bus),
    (test_basic_communication bus initState).1 = true ↔
    ∃ st s1 dt s2 s3,
      readDR bus initState I2C_AS72XX_SLAVE_STATUS_REG = (some st, s1) ∧
      read_virtual_register bus s1 AS7263_REG_DEVICE_TYPE = (some dt, s2) ∧
      read_virtual_register bus s2 AS7263_REG_HW_VERSION = (some 0x41, s3) := by
  intro bus
  rcases h0 : readDR bus initState I2C_AS72XX_SLAVE_STATUS_REG with ⟨r0v, s1⟩
  cases r0v with
  | none =>
    constructor
    · intro h
      simp [test_basic_communication, h0] at h
    · rintro ⟨st, s1', _, _, _, h0', _, _⟩
      simp at h0'
  | some st =>
    rcases h1 : read_virtual_register bus s1 AS7263_REG_DEVICE_TYPE with ⟨r1v, s2⟩
    cases r1v with
    | none =>
      constructor
      · intro h
        simp [test_basic_communication, h0, h1] at h
      · rintro ⟨st', s1', dt, s2', _, h0', h1', _⟩
        have hs1 : s1 = s1' := congrArg Prod.snd h0'
        subst hs1
        have hcontra := h1.symm.trans h1'
        simp at hcontra
    | some dt =>
      rcases h2 : read_virtual_register bus s2 AS7263_REG_HW_VERSION with ⟨r2v, s3⟩
      constructor
      · intro h
        simp only [test_basic_communication, h0, h1, h2] at h
        cases r2v with
        | none => simp at h
        | some hv =>
          by_cases hhv : hv = 0x41
          · subst hhv
            exact ⟨st, s1, dt, s2, s3, rfl, h1, h2⟩
          · simp [hhv] at h
      · rintro ⟨st', s1', dt', s2', s3', h0', h1', h2'⟩
        have hs1 : s1 = s1' := congrArg Prod.snd h0'
        subst hs1
        have he1 := h1.symm.trans h1'
        have hs2 : s2 = s2' := congrArg Prod.snd he1
        subst hs2
        have he2 := h2.symm.trans h2'
        have hr2 : r2v = some 0x41 := congrArg Prod.fst he2
        subst hr2
        simp [test_basic_communication, h0, h1, h2]

/-- A bus whose write at bus-operation 1 (the framed address of the NIR
selection) fails, while everything else succeeds: STATUS always 0x01,
READ returns 25. -/
def busC6 : Bus :=
  ⟨fun _ reg => if reg = I2C_AS72XX_SLAVE_READ_REG then some 25 else some 1,
   fun t _ _ => t != 1⟩

/-- C6 counterexample: against busC6 the NIR selection fails, yet the
Visible and UV devices are still selected and read afterwards (their
selector codes 0x01 and 0x02 appear as later payload writes and their
results are recorded), so a FAIL does not abort the selection sequence. -/
theorem c6_counterexample :
    (test_device_selection busC6 initState).1 = false ∧
    (test_device_selection busC6 initState).2.2 = [false, true, true] ∧
    BusEvent.writeEvt I2C_AS72XX_SLAVE_WRITE_REG AS72652_VISIBLE true ∈
      (test_device_selection busC6 initState).2.1.trace ∧
    BusEvent.writeEvt I2C_AS72XX_SLAVE_WRITE_REG AS72653_UV true ∈
      (test_device_selection busC6 initState).2.1.trace := by decide

/-- C6 amended: all three devices are always attempted in order (no abort
after a failure); the overall verdict is the conjunction of the three
per-device results, and each per-device result is true iff that device
responded (its selection write succeeded and its temperature read returned
a value). -/
theorem c6_amended_no_abort : ∀ (bus : Bus) (s : BusState),
    (∃ r1 s1 r2 s2 r3 s3,
      selStep bus s AS72651_NIR = (r1, s1) ∧
      selStep bus s1 AS72652_VISIBLE = (r2, s2) ∧
      selStep bus s2 AS72653_UV = (r3, s3) ∧
      test_device_selection bus s = (r1 && (r2 && r3), s3, [r1, r2, r3])) ∧
    (∀ (s' : BusState) (d : Nat), (selStep bus s' d).1 = true ↔
      ∃ sw t, write_virtual_register bus s' AS7265X_DEV_SELECT_CONTROL d = (true, sw) ∧
        (read_virtual_register bus (settle sw) AS7265X_DEVICE_TEMP).1 = some t) := by
  intro bus s
  constructor
  · rcases hA : selStep bus s AS72651_NIR with ⟨r1, s1⟩
    rcases hB : selStep bus s1 AS72652_VISIBLE with ⟨r2, s2⟩
    rcases hC : selStep bus s2 AS72653_UV with ⟨r3, s3⟩
    refine ⟨r1, s1, r2, s2, r3, s3, rfl, hB, hC, ?_⟩
    simp [test_device_selection, selLoop, devices, hA, hB, hC, List.all]
  · intro s' d
    constructor
    · intro h
      rcases hw : write_virtual_register bus s' AS7265X_DEV_SELECT_CONTROL d with ⟨wb, sw⟩
      cases wb
      · simp [selStep, hw] at h
      · rcases hr : read_virtual_register bus (settle sw) AS7265X_DEVICE_TEMP with ⟨rv, s2'⟩
        cases rv with
        | none => simp [selStep, hw, hr] at h
        | some t => exact ⟨sw, t, rfl, by rw [hr]⟩
    · rintro ⟨sw, t, hw, hr⟩
      simp [selStep, hw, hr]

theorem getLast_of_concat {l pre : List BusEvent} {a : BusEvent}
    (h : l = pre ++ [a]) : l.getLast? = some a := by
  rw [h, List.getLast?_append_cons]
  rfl

theorem mem_of_getLast {l : List BusEvent} {a : BusEvent}
    (h : l.getLast? = some a) : a ∈ l := by
  obtain ⟨hne, hx⟩ := List.mem_getLast?_eq_getLast (Option.mem_def.mpr h)
  rw [hx]
  exact List.getLast_mem hne

theorem failedPoll_not_readREAD (cond : Nat → Bool) (r : Option Nat) :
    isFailedPollEvt cond (BusEvent.readEvt I2C_AS72XX_SLAVE_READ_REG r) = false := by
  simp [isFailedPollEvt, I2C_AS72XX_SLAVE_READ_REG, I2C_AS72XX_SLAVE_STATUS_REG]

/-- C7 counterexample: a read stalled in the first (tx-ready) phase and a
read stalled in the rx-ready phase — distinguishable states, since only
the second ever framed the address onto WRITE — both return the same
undifferentiated outcome `none`, so the outcome does not identify the
stalled phase. -/
theorem c7_counterexample :
    (read_virtual_register busTxStall initState 6).1 = none ∧
    (read_virtual_register busRxNever initState 6).1 = none ∧
    writeRegPayloads ((read_virtual_register busTxStall initState 6).2.trace) = [] ∧
    writeRegPayloads ((read_virtual_register busRxNever initState 6).2.trace) = [6] := by
  decide

/-- C7 amended: a virtual-register read returns `some v` iff its final bus
event is a successful direct read of the READ register yielding v; every
failure (whichever phase stalled and whether it was a timeout or a direct
write fault) collapses to the single outcome `none`, which is still
distinguishable from a successful read of a falsy byte such as 0x00. -/
theorem c7_amended_failure_outcome : ∀ (bus : Bus) (addr v : Nat),
    (read_virtual_register bus initState addr).1 = some v ↔
    ∃ pre, (read_virtual_register bus initState addr).2.trace =
      pre ++ [BusEvent.readEvt I2C_AS72XX_SLAVE_READ_REG (some v)] := by
  intro bus addr v
  rcases hp1 : pollLoop bus txReadyObserved 50 initState with ⟨b1, s1⟩
  cases b1
  · obtain ⟨junk, _, htr, hc1, _, hall⟩ :=
      pollLoop_false bus txReadyObserved 50 initState s1 hp1
    have hres : read_virtual_register bus initState addr = (none, s1) := by
      simp [read_virtual_register, hp1]
    rw [hres]
    constructor
    · intro h
      simp at h
    · rintro ⟨pre, hpre⟩
      exfalso
      have hlast := getLast_of_concat hpre
      rw [htr] at hlast
      simp only [initState, List.nil_append] at hlast
      have := hall _ (mem_of_getLast hlast)
      rw [failedPoll_not_readREAD] at this
      exact Bool.false_ne_true this
  · cases hok : bus.writeFn s1.time I2C_AS72XX_SLAVE_WRITE_REG addr
    · have hres : read_virtual_register bus initState addr =
          (none, ⟨s1.time + 1, s1.trace ++
            [BusEvent.writeEvt I2C_AS72XX_SLAVE_WRITE_REG addr false]⟩) := by
        simp [read_virtual_register, hp1, writeDR, hok]
      rw [hres]
      constructor
      · intro h
        simp at h
      · rintro ⟨pre, hpre⟩
        exfalso
        have h1 : (s1.trace ++
            [BusEvent.writeEvt I2C_AS72XX_SLAVE_WRITE_REG addr false]).getLast? =
            some (BusEvent.writeEvt I2C_AS72XX_SLAVE_WRITE_REG addr false) :=
          getLast_of_concat rfl
        replace hpre : s1.trace ++
            [BusEvent.writeEvt I2C_AS72XX_SLAVE_WRITE_REG addr false] =
            pre ++ [BusEvent.readEvt I2C_AS72XX_SLAVE_READ_REG (some v)] := hpre
        rw [hpre] at h1
        rw [getLast_of_concat (rfl : pre ++ [BusEvent.readEvt I2C_AS72XX_SLAVE_READ_REG (some v)] = pre ++ [BusEvent.readEvt I2C_AS72XX_SLAVE_READ_REG (some v)])] at h1
        simp at h1
    · rcases hp2 : pollLoop bus rxReadyObserved 50
        ⟨s1.time + 1, s1.trace ++
          [BusEvent.writeEvt I2C_AS72XX_SLAVE_WRITE_REG addr true]⟩ with ⟨b2, s3⟩
      cases b2
      · obtain ⟨junk2, _, htr2, hc2, _, hall2⟩ := pollLoop_false bus rxReadyObserved 50
          ⟨s1.time + 1, s1.trace ++
            [BusEvent.writeEvt I2C_AS72XX_SLAVE_WRITE_REG addr true]⟩ s3 hp2
        have hres : read_virtual_register bus initState addr = (none, s3) := by
          simp [read_virtual_register, hp1, writeDR, hok, hp2]
        rw [hres]
        constructor
        · intro h
          simp at h
        · rintro ⟨pre, hpre⟩
          exfalso
          have hne : junk2 ≠ [] := by
            intro h0
            rw [h0] at hc2
            simp at hc2
          have hlast := getLast_of_concat hpre
          rw [htr2, List.getLast?_append_of_ne_nil _ hne] at hlast
          have := hall2 _ (mem_of_getLast hlast)
          rw [failedPoll_not_readREAD] at this
          exact Bool.false_ne_true this
      · cases hr : bus.readFn s3.time I2C_AS72XX_SLAVE_READ_REG with
        | none =>
          have hres : read_virtual_register bus initState addr =
              (none, ⟨s3.time + 1, s3.trace ++
                [BusEvent.readEvt I2C_AS72XX_SLAVE_READ_REG none]⟩) := by
            simp [read_virtual_register, hp1, writeDR, hok, hp2, readDR, hr]
          rw [hres]
          constructor
          · intro h
            simp at h
          · rintro ⟨pre, hpre⟩
            exfalso
            have h1 : (s3.trace ++
                [BusEvent.readEvt I2C_AS72XX_SLAVE_READ_REG none]).getLast? =
                some (BusEvent.readEvt I2C_AS72XX_SLAVE_READ_REG none) :=
              getLast_of_concat rfl
            replace hpre : s3.trace ++
                [BusEvent.readEvt I2C_AS72XX_SLAVE_READ_REG none] =
                pre ++ [BusEvent.readEvt I2C_AS72XX_SLAVE_READ_REG (some v)] := hpre
            rw [hpre] at h1
            rw [getLast_of_concat (rfl : pre ++ [BusEvent.readEvt I2C_AS72XX_SLAVE_READ_REG (some v)] = pre ++ [BusEvent.readEvt I2C_AS72XX_SLAVE_READ_REG (some v)])] at h1
            simp at h1
        | some t =>
          have hres : read_virtual_register bus initState addr =
              (some t, ⟨s3.time + 1, s3.trace ++
                [BusEvent.readEvt I2C_AS72XX_SLAVE_READ_REG (some t)]⟩) := by
            simp [read_virtual_register, hp1, writeDR, hok, hp2, readDR, hr]
          rw [hres]
          constructor
          · intro h
            have ht : t = v := by simpa using h
            subst ht
            exact ⟨s3.trace, rfl⟩
          · rintro ⟨pre, hpre⟩
            have h1 : (s3.trace ++
                [BusEvent.readEvt I2C_AS72XX_SLAVE_READ_REG (some t)]).getLast? =
                some (BusEvent.readEvt I2C_AS72XX_SLAVE_READ_REG (some t)) :=
              getLast_of_concat rfl
            replace hpre : s3.trace ++
                [BusEvent.readEvt I2C_AS72XX_SLAVE_READ_REG (some t)] =
                pre ++ [BusEvent.readEvt I2C_AS72XX_SLAVE_READ_REG (some v)] := hpre
            rw [hpre] at h1
            rw [getLast_of_concat (rfl : pre ++ [BusEvent.readEvt I2C_AS72XX_SLAVE_READ_REG (some v)] = pre ++ [BusEvent.readEvt I2C_AS72XX_SLAVE_READ_REG (some v)])] at h1
            have : t = v := by simpa using h1.symm
            subst this
            rfl

/-- No failed direct write occurs in the trace. -/
def noFailedWrite (tr : List BusEvent) : Prop :=
  ∀ reg v, BusEvent.writeEvt reg v false ∉ tr

theorem junk_noFailedWrite (cond : Nat → Bool) (junk : List BusEvent)
    (hall : ∀ e ∈ junk, isFailedPollEvt cond e = true) : noFailedWrite junk :=
  fun reg v hm => junk_no_writeEvt cond junk hall reg v false hm

theorem noFailedWrite_append {a b : List BusEvent}
    (ha : noFailedWrite a) (hb : noFailedWrite b) : noFailedWrite (a ++ b) := by
  intro reg v hm
  rcases List.mem_append.mp hm with h | h
  · exact ha _ _ h
  · exact hb _ _ h

theorem noFailedWrite_single_true (reg0 v0 : Nat) :
    noFailedWrite [BusEvent.writeEvt reg0 v0 true] := by
  intro reg v hm
  simp at hm

theorem noFailedWrite_single_read (reg0 : Nat) (r : Option Nat) :
    noFailedWrite [BusEvent.readEvt reg0 r] := by
  intro reg v hm
  simp at hm

theorem noFailedWrite_init : noFailedWrite initState.trace := by
  intro reg v hm
  simp [initState] at hm

theorem pollLoop_noFailedWrite (bus : Bus) (cond : Nat → Bool) (n : Nat)
    {s s' : BusState} {b : Bool} (h : pollLoop bus cond n s = (b, s'))
    (hs : noFailedWrite s.trace) : noFailedWrite s'.trace := by
  cases b
  · obtain ⟨junk, _, htr, _, _, hall⟩ := pollLoop_false bus cond n s s' h
    rw [htr]
    exact noFailedWrite_append hs (junk_noFailedWrite cond junk hall)
  · obtain ⟨junk, w, htr, _, hall⟩ := pollLoop_true bus cond n s s' h
    rw [htr]
    exact noFailedWrite_append
      (noFailedWrite_append hs (junk_noFailedWrite cond junk hall))
      (noFailedWrite_single_read _ _)

/-- A bus that refuses every direct write, with STATUS always ready. -/
def busWFail : Bus := ⟨fun _ _ => some 1, fun _ _ _ => false⟩

/-- A bus whose very first STATUS read fails (transport error), after
which everything succeeds; READ returns 7. -/
def busC8 : Bus :=
  ⟨fun t reg => if reg = I2C_AS72XX_SLAVE_READ_REG then some 7
      else (if t = 0 then none else some 1),
   fun _ _ _ => true⟩

/-- C8 counterexample: against busC8 the first underlying byte read fails
(the trace starts with a failed STATUS read), yet the read operation does
not surface the failure — it keeps polling, consumes an attempt and a
sleep, and succeeds with payload 7. -/
theorem c8_counterexample :
    read_virtual_register busC8 initState 6 =
      (some 7, ⟨5, [BusEvent.readEvt 0 none, BusEvent.sleepEvt 100,
        BusEvent.readEvt 0 (some 1), BusEvent.writeEvt 1 6 true,
        BusEvent.readEvt 0 (some 1), BusEvent.readEvt 2 (some 7)]⟩) := by decide

/-- C8 amended: only failed direct writes are surfaced immediately — a
failed write of the WRITE register is always the final event of the trace
and forces the failure outcome; failed STATUS reads during polling are
absorbed as ordinary not-ready polling attempts. -/
theorem c8_amended_write_fault_terminal : ∀ (bus : Bus) (addr data reg v : Nat),
    (BusEvent.writeEvt reg v false ∈
        (write_virtual_register bus initState addr data).2.trace →
      ((write_virtual_register bus initState addr data).2.trace).getLast? =
        some (BusEvent.writeEvt reg v false) ∧
      (write_virtual_register bus initState addr data).1 = false) ∧
    (BusEvent.writeEvt reg v false ∈
        (read_virtual_register bus initState addr).2.trace →
      ((read_virtual_register bus initState addr).2.trace).getLast? =
        some (BusEvent.writeEvt reg v false) ∧
      (read_virtual_register bus initState addr).1 = none) := by
  intro bus addr data reg v
  constructor
  · intro hm
    rcases hp1 : pollLoop bus txReadyObserved 50 initState with ⟨b1, s1⟩
    cases b1
    · have hres : write_virtual_register bus initState addr data = (false, s1) := by
        simp [write_virtual_register, hp1]
      rw [hres] at hm
      exact absurd hm (pollLoop_noFailedWrite bus txReadyObserved 50 hp1 noFailedWrite_init reg v)
    · have h1nf : noFailedWrite s1.trace :=
        pollLoop_noFailedWrite bus txReadyObserved 50 hp1 noFailedWrite_init
      cases hok : bus.writeFn s1.time I2C_AS72XX_SLAVE_WRITE_REG (addr ||| 0x80)
      · have hres : write_virtual_register bus initState addr data =
            (false, ⟨s1.time + 1, s1.trace ++
              [BusEvent.writeEvt I2C_AS72XX_SLAVE_WRITE_REG (addr ||| 0x80) false]⟩) := by
          simp [write_virtual_register, hp1, writeDR, hok]
        rw [hres] at hm ⊢
        rcases List.mem_append.mp hm with hma | hmb
        · exact absurd hma (h1nf reg v)
        · have heq := List.mem_singleton.mp hmb
          injection heq with e1 e2 e3
          subst e1
          subst e2
          exact ⟨getLast_of_concat rfl, rfl⟩
      · have hsW : noFailedWrite (s1.trace ++
            [BusEvent.writeEvt I2C_AS72XX_SLAVE_WRITE_REG (addr ||| 0x80) true]) :=
          noFailedWrite_append h1nf (noFailedWrite_single_true _ _)
        rcases hp2 : pollLoop bus txReadyObserved 50
          ⟨s1.time + 1, s1.trace ++
            [BusEvent.writeEvt I2C_AS72XX_SLAVE_WRITE_REG (addr ||| 0x80) true]⟩ with ⟨b2, s3⟩
        have h3nf : noFailedWrite s3.trace := by
          have := pollLoop_noFailedWrite bus txReadyObserved 50 hp2 hsW
          exact this
        cases b2
        · have hres : write_virtual_register bus initState addr data = (false, s3) := by
            simp [write_virtual_register, hp1, writeDR, hok, hp2]
          rw [hres] at hm
          exact absurd hm (h3nf reg v)
        · cases hok2 : bus.writeFn s3.time I2C_AS72XX_SLAVE_WRITE_REG data
          · have hres : write_virtual_register bus initState addr data =
                (false, ⟨s3.time + 1, s3.trace ++
                  [BusEvent.writeEvt I2C_AS72XX_SLAVE_WRITE_REG data false]⟩) := by
              simp [write_virtual_register, hp1, writeDR, hok, hp2, hok2]
            rw [hres] at hm ⊢
            rcases List.mem_append.mp hm with hma | hmb
            · exact absurd hma (h3nf reg v)
            · have heq := List.mem_singleton.mp hmb
              injection heq with e1 e2 e3
              subst e1
              subst e2
              exact ⟨getLast_of_concat rfl, rfl⟩
          · have hres : write_virtual_register bus initState addr data =
                (true, ⟨s3.time + 1, s3.trace ++
                  [BusEvent.writeEvt I2C_AS72XX_SLAVE_WRITE_REG data true]⟩) := by
              simp [write_virtual_register, hp1, writeDR, hok, hp2, hok2]
            rw [hres] at hm
            rcases List.mem_append.mp hm with hma | hmb
            · exact absurd hma (h3nf reg v)
            · have heq := List.mem_singleton.mp hmb
              injection heq with e1 e2 e3
              exact absurd e3 Bool.false_ne_true
  · intro hm
    rcases hp1 : pollLoop bus txReadyObserved 50 initState with ⟨b1, s1⟩
    cases b1
    · have hres : read_virtual_register bus initState addr = (none, s1) := by
        simp [read_virtual_register, hp1]
      rw [hres] at hm
      exact absurd hm (pollLoop_noFailedWrite bus txReadyObserved 50 hp1 noFailedWrite_init reg v)
    · have h1nf : noFailedWrite s1.trace :=
        pollLoop_noFailedWrite bus txReadyObserved 50 hp1 noFailedWrite_init
      cases hok : bus.writeFn s1.time I2C_AS72XX_SLAVE_WRITE_REG addr
      · have hres : read_virtual_register bus initState addr =
            (none, ⟨s1.time + 1, s1.trace ++
              [BusEvent.writeEvt I2C_AS72XX_SLAVE_WRITE_REG addr false]⟩) := by
          simp [read_virtual_register, hp1, writeDR, hok]
        rw [hres] at hm ⊢
        rcases List.mem_append.mp hm with hma | hmb
        · exact absurd hma (h1nf reg v)
        · have heq := List.mem_singleton.mp hmb
          injection heq with e1 e2 e3
          subst e1
          subst e2
          exact ⟨getLast_of_concat rfl, rfl⟩
      · have hsW : noFailedWrite (s1.trace ++
            [BusEvent.writeEvt I2C_AS72XX_SLAVE_WRITE_REG addr true]) :=
          noFailedWrite_append h1nf (noFailedWrite_single_true _ _)
        rcases hp2 : pollLoop bus rxReadyObserved 50
          ⟨s1.time + 1, s1.trace ++
            [BusEvent.writeEvt I2C_AS72XX_SLAVE_WRITE_REG addr true]⟩ with ⟨b2, s3⟩
        have h3nf : noFailedWrite s3.trace :=
          pollLoop_noFailedWrite bus rxReadyObserved 50 hp2 hsW
        cases b2
        · have hres : read_virtual_register bus initState addr = (none, s3) := by
            simp [read_virtual_register, hp1, writeDR, hok, hp2]
          rw [hres] at hm
          exact absurd hm (h3nf reg v)
        · have hres : read_virtual_register bus initState addr =
              (bus.readFn s3.time I2C_AS72XX_SLAVE_READ_REG,
               ⟨s3.time + 1, s3.trace ++ [BusEvent.readEvt I2C_AS72XX_SLAVE_READ_REG
                 (bus.readFn s3.time I2C_AS72XX_SLAVE_READ_REG)]⟩) := by
            simp [read_virtual_register, hp1, writeDR, hok, hp2, readDR]
          rw [hres] at hm
          rcases List.mem_append.mp hm with hma | hmb
          · exact absurd hma (h3nf reg v)
          · simp at hmb

/-- Witness for c8_amended_write_fault_terminal against a bus whose
writes all fail. -/
theorem c8_amended_write_fault_terminal_witness :
    BusEvent.writeEvt 1 134 false ∈
      (write_virtual_register busWFail initState 6 9).2.trace ∧
    ((write_virtual_register busWFail initState 6 9).2.trace).getLast? =
      some (BusEvent.writeEvt 1 134 false) ∧
    (write_virtual_register busWFail initState 6 9).1 = false := by
  have hm : BusEvent.writeEvt 1 134 false ∈
      (write_virtual_register busWFail initState 6 9).2.trace := by decide
  exact ⟨hm, ((c8_amended_write_fault_terminal busWFail 6 9 1 134).1 hm).1,
    ((c8_amended_write_fault_terminal busWFail 6 9 1 134).1 hm).2⟩

/-- C9: the full test runs Hardware Reset, I2C Communication, Device
Selection in that fixed order: the executed phases always form a prefix of
that sequence (so nothing runs after the first failure and no phase is
repeated), every phase before the last executed one passed, the overall
result is PASS iff every executed phase passed, and the run progresses as
far as its phases pass — either all three phases were executed, or the
last executed phase is the one that failed, so a passing phase is always
followed by the next phase of the sequence. -/
theorem c9_phase_sequencing : ∀ (resetLowOk resetHighOk : Bool) (bus : Bus) (s : BusState),
    List.IsPrefix ((run_full_test resetLowOk resetHighOk bus s).2.1.map Prod.fst)
      [PhaseName.hwReset, PhaseName.i2cComm, PhaseName.devSelect] ∧
    ((run_full_test resetLowOk resetHighOk bus s).1 = true ↔
      ∀ p ∈ (run_full_test resetLowOk resetHighOk bus s).2.1, p.2 = true) ∧
    (∀ p ∈ ((run_full_test resetLowOk resetHighOk bus s).2.1).dropLast, p.2 = true) ∧
    ((run_full_test resetLowOk resetHighOk bus s).2.1.map Prod.fst).Nodup ∧
    ((run_full_test resetLowOk resetHighOk bus s).2.1.map Prod.fst =
        [PhaseName.hwReset, PhaseName.i2cComm, PhaseName.devSelect] ∨
      ∃ nm, ((run_full_test resetLowOk resetHighOk bus s).2.1).getLast? =
        some (nm, false)) := by
  intro lo hi bus s
  rcases ht : test_basic_communication bus s with ⟨tb, ts, tl⟩
  rcases hd : test_device_selection bus ts with ⟨db, ds, dl⟩
  cases hr1 : hardware_reset lo hi
  · have hres : run_full_test lo hi bus s = (false, [(PhaseName.hwReset, false)], s) := by
      simp [run_full_test, runTests, hr1]
    rw [hres]
    refine ⟨?_, by simp, by simp, by simp, ?_⟩
    · exact ⟨[PhaseName.i2cComm, PhaseName.devSelect], rfl⟩
    · exact Or.inr ⟨PhaseName.hwReset, rfl⟩
  · cases tb
    · have hres : run_full_test lo hi bus s =
          (false, [(PhaseName.hwReset, true), (PhaseName.i2cComm, false)], ts) := by
        simp [run_full_test, runTests, hr1, ht]
      rw [hres]
      refine ⟨?_, by simp, by simp, by simp, ?_⟩
      · exact ⟨[PhaseName.devSelect], rfl⟩
      · exact Or.inr ⟨PhaseName.i2cComm, rfl⟩
    · cases db
      · have hres : run_full_test lo hi bus s =
            (false, [(PhaseName.hwReset, true), (PhaseName.i2cComm, true),
                     (PhaseName.devSelect, false)], ds) := by
          simp [run_full_test, runTests, hr1, ht, hd]
        rw [hres]
        refine ⟨?_, by simp, by simp, by simp, ?_⟩
        · exact ⟨[], by simp⟩
        · exact Or.inr ⟨PhaseName.devSelect, rfl⟩
      · have hres : run_full_test lo hi bus s =
            (true, [(PhaseName.hwReset, true), (PhaseName.i2cComm, true),
                    (PhaseName.devSelect, true)], ds) := by
          simp [run_full_test, runTests, hr1, ht, hd]
        rw [hres]
        refine ⟨?_, by simp, by simp, by simp, ?_⟩
        · exact ⟨[], by simp⟩
        · exact Or.inl rfl

/-- Witness for c5_amended_identity_check at busC5. -/
theorem c5_amended_identity_check_witness :
    ∃ st s1 dt s2 s3,
      readDR busC5 initState I2C_AS72XX_SLAVE_STATUS_REG = (some st, s1) ∧
      read_virtual_register busC5 s1 AS7263_REG_DEVICE_TYPE = (some dt, s2) ∧
      read_virtual_register busC5 s2 AS7263_REG_HW_VERSION = (some 0x41, s3) :=
  (c5_amended_identity_check busC5).mp (by decide)

/-- Witness for c6_amended_no_abort at busHappy, NIR. -/
theorem c6_amended_no_abort_witness :
    ∃ sw t, write_virtual_register busHappy initState AS7265X_DEV_SELECT_CONTROL
        AS72651_NIR = (true, sw) ∧
      (read_virtual_register busHappy (settle sw) AS7265X_DEVICE_TEMP).1 = some t :=
  ((c6_amended_no_abort busHappy initState).2 initState AS72651_NIR).mp (by decide)

/-- Witness for c7_amended_failure_outcome at busHappy. -/
theorem c7_amended_failure_outcome_witness :
    ∃ pre, (read_virtual_register busHappy initState 6).2.trace =
      pre ++ [BusEvent.readEvt I2C_AS72XX_SLAVE_READ_REG (some 42)] :=
  (c7_amended_failure_outcome busHappy 6 42).mp (by decide)

/-- Witness for c9_phase_sequencing at a concrete run. -/
theorem c9_phase_sequencing_witness :
    List.IsPrefix ((run_full_test true true busHappy initState).2.1.map Prod.fst)
      [PhaseName.hwReset, PhaseName.i2cComm, PhaseName.devSelect] ∧
    (∀ p ∈ ((run_full_test true true busHappy initState).2.1).dropLast, p.2 = true) ∧
    ((run_full_test true true busHappy initState).2.1.map Prod.fst =
        [PhaseName.hwReset, PhaseName.i2cComm, PhaseName.devSelect] ∨
      ∃ nm, ((run_full_test true true busHappy initState).2.1).getLast? =
        some (nm, false)) :=
  ⟨(c9_phase_sequencing true true busHappy initState).1,
   (c9_phase_sequencing true true busHappy initState).2.2.1,
   (c9_phase_sequencing true true busHappy initState).2.2.2.2⟩
